import Mathlib

/-!
Shallow embedding of `src/nanomock/nanomock_manager.py` (class `NanoLocalManager`):
the command dispatcher, the self-healing subprocess execution layer, the
concurrent readiness poller and the status aggregation, together with theorems
about them.

External collaborators (the docker binary, docker-compose, the RPC client
`NanoRpc`, the config parser `ConfigParser`) are modelled as oracle functions
supplied through explicit environment records (`World`, `PollWorld`,
`StatusEnv`).  Recursion that is unbounded in the source (the executor/healer
mutual recursion, the polling loop) is made total with an explicit fuel
argument; running out of fuel is reported as a distinct outcome, so that
"never completes, for any fuel" expresses divergence of the source loop.
Python float division in the sync-percentage computation is modelled as exact
rational division.
-/

/-- A command handed to `subprocess.run`: either a shell string (`shell=True`)
or an argument vector (`shell=False`). -/
inductive Cmd where
  | shell (line : String)
  | argv (args : List String)
  deriving DecidableEq

/-- The Python exception values raised by the code under study.
`calledProcessError` keeps the fields the source inspects: the failed command
(`e.cmd`) and its captured `stderr`. -/
inductive PyError where
  | valueError (msg : String)
  | calledProcessError (cmd : Cmd) (stderr : String)
  | attributeError
  | zeroDivisionError
  deriving DecidableEq

/-- Outcome of one external process invocation, as captured by
`subprocess.run(..., check=True, capture_output=True)`:  a zero exit with
stdout, or a non-zero exit with stderr (raised as `CalledProcessError`). -/
inductive ExecOutcome where
  | ok (stdout : String)
  | fail (stderr : String)
  deriving DecidableEq

/-- The external environment seen by the process executor: what running a
given command produces.  Deterministic per command, which suffices for the
properties studied here. -/
structure World where
  run : Cmd → ExecOutcome

/-- Result of `_subprocess_capture_raise` in the embedding: a normal return
with stdout, a propagated Python exception, or fuel exhaustion (the source
recursion did not complete within the allotted number of calls). -/
inductive ExecResult where
  | ok (stdout : String)
  | raised (e : PyError)
  | outOfFuel
  deriving DecidableEq

/-- Word characters, as matched by the regex class `\w`. -/
def is_word_char (c : Char) : Bool := c.isAlphanum || c == '_'

/-- Whether `pat` occurs at the start of the character list. -/
def chars_start_with : List Char → List Char → Bool
  | [], _ => true
  | _ :: _, [] => false
  | c :: cs, d :: ds => c == d && chars_start_with cs ds

/-- First occurrence search: returns the remainder of the list after the
first occurrence of `pat`, or `none` when `pat` does not occur. -/
def chars_after (pat : List Char) : List Char → Option (List Char)
  | [] => if chars_start_with pat [] then some [] else none
  | c :: cs =>
    if chars_start_with pat (c :: cs) then some (List.drop pat.length (c :: cs))
    else chars_after pat cs

/-- Python's substring containment `pat in s`. -/
def substr_in (pat s : String) : Bool := (chars_after pat.toList s.toList).isSome

/-- Models `re.search(r"{} (\w+)".format(error_msg), stderr).group(1)` from
`_heal_address_in_use` (source lines 462-468): the run of word characters
following the first occurrence of `pat ++ " "`; `none` when the regex finds
no match (the source then raises `AttributeError` on the `None` result). -/
def extract_word_after (pat s : String) : Option String :=
  match chars_after (pat ++ " ").toList s.toList with
  | some rest =>
    let w := rest.takeWhile is_word_char
    if w.isEmpty then none else some (String.mk w)
  | none => none

/-- Models `re.search(r'{} "/([^"]+)"'.format(error_msg), stderr)` from
`_heal_docker_in_use` (source lines 470-479): the non-empty run of
non-quote characters after the first occurrence of `pat ++ " \"/"`, which
must be terminated by a closing quote. -/
def extract_quoted_after (pat s : String) : Option String :=
  match chars_after (pat ++ " \"/").toList s.toList with
  | some rest =>
    let w := rest.takeWhile (fun c => !(c == '"'))
    if w.isEmpty || w.length == rest.length then none else some (String.mk w)
  | none => none

/-- Heal-rule pattern for the `address_in_use` entry (source line 438). -/
def addr_pattern : String := "programming external connectivity on endpoint"

/-- Heal-rule pattern for the `docker_in_use` entry (source line 441). -/
def docker_pattern : String := "Error response from daemon: Conflict. The container name"

/-- Remediation command issued by `_heal_address_in_use` (source line 466). -/
def heal_address_cmd (container_name : String) : Cmd :=
  .shell ("docker stop -t 0 " ++ container_name ++ " && sleep 5 && docker start " ++ container_name)

/-- Remediation command issued by `_heal_docker_in_use` (source line 476). -/
def heal_docker_cmd (container_name : String) : Cmd :=
  .shell ("docker stop -t 0 " ++ container_name ++ " && docker rm " ++ container_name ++ " && sleep 5")

/-- `_subprocess_capture_raise` (source lines 59-77) together with the inlined
body of `auto_heal` (lines 428-460), made total by structural recursion on a
fuel argument; every (mutually) recursive call in the source consumes one unit
of fuel.  Faithful points: the heal table is scanned in insertion order
(`address_in_use` first); a matching rule whose remediation succeeds re-issues
the original command with `increment + 1`; the remediation subprocess itself
is issued with the *default* `increment = 0`; when no rule matches, the source
raises `ValueError(error.stderr)` (line 459; the `raise (error)` on line 460
is unreachable); `increment >= 10` re-raises the original error (line 433). -/
def subprocess_capture_raise (w : World) : Nat → Cmd → Nat → ExecResult
  | 0, _, _ => .outOfFuel
  | fuel + 1, cmd, increment =>
    match w.run cmd with
    | .ok out => .ok out
    | .fail stderr =>
      if 10 ≤ increment then .raised (.calledProcessError cmd stderr)
      else if substr_in addr_pattern stderr = true then
        match extract_word_after addr_pattern stderr with
        | none => .raised .attributeError
        | some nm =>
          match subprocess_capture_raise w fuel (heal_address_cmd nm) 0 with
          | .ok _ => subprocess_capture_raise w fuel cmd (increment + 1)
          | .raised e => .raised e
          | .outOfFuel => .outOfFuel
      else if substr_in docker_pattern stderr = true then
        match extract_quoted_after docker_pattern stderr with
        | some nm =>
          match subprocess_capture_raise w fuel (heal_docker_cmd nm) 0 with
          | .ok _ => subprocess_capture_raise w fuel cmd (increment + 1)
          | .raised e => .raised e
          | .outOfFuel => .outOfFuel
        | none => .raised (.valueError stderr)
      else .raised (.valueError stderr)

/-- `auto_heal` (source lines 428-460) by itself, entered with the failed
command, its captured stderr and the current retry count; recursive subprocess
invocations run with fuel `fuel`. -/
def auto_heal (w : World) (fuel : Nat) (origCmd : Cmd) (stderr : String) (increment : Nat) : ExecResult :=
  if 10 ≤ increment then .raised (.calledProcessError origCmd stderr)
  else if substr_in addr_pattern stderr = true then
    match extract_word_after addr_pattern stderr with
    | none => .raised .attributeError
    | some nm =>
      match subprocess_capture_raise w fuel (heal_address_cmd nm) 0 with
      | .ok _ => subprocess_capture_raise w fuel origCmd (increment + 1)
      | .raised e => .raised e
      | .outOfFuel => .outOfFuel
  else if substr_in docker_pattern stderr = true then
    match extract_quoted_after docker_pattern stderr with
    | some nm =>
      match subprocess_capture_raise w fuel (heal_docker_cmd nm) 0 with
      | .ok _ => subprocess_capture_raise w fuel origCmd (increment + 1)
      | .raised e => .raised e
      | .outOfFuel => .outOfFuel
    | none => .raised (.valueError stderr)
  else .raised (.valueError stderr)

/-- The process-executor divergence predicate: for every fuel allowance the
computation fails to complete, i.e. the executor/healer recursion of the
source never terminates in the given world. -/
def diverges (w : World) (c : Cmd) : Prop :=
  ∀ fuel, subprocess_capture_raise w fuel c 0 = .outOfFuel

/-- Outcome of `_wait_for_rpc_availability`: normal return, the
`ValueError(f"TIMEOUT: RPCs not reachable for nodes {nodes_to_check}")`
carrying the still-pending node list, or fuel exhaustion. -/
inductive PollResult where
  | success
  | timeoutErr (pending : List String)
  | outOfFuel
  deriving DecidableEq

/-- Result of a polling run plus the total number of individual probes
(`_is_rpc_available` calls) issued. -/
structure PollOut where
  result : PollResult
  probes : Nat
  deriving DecidableEq

/-- Environment for the readiness poller: `available r n` is the outcome of
probing node `n` during round `r` (`_is_rpc_available` returning `True`), and
`elapsedAfter r` is `time.time() - start_time` observed right after round `r`,
in seconds. -/
structure PollWorld where
  available : Nat → String → Bool
  elapsedAfter : Nat → Nat

/-- One round of `get_unavailable_nodes` (source lines 273-280): the nodes of
`pending` whose probe in round `r` did not succeed, in order. -/
def still_pending (w : PollWorld) (pending : List String) (r : Nat) : List String :=
  pending.filter (fun nd => !(w.available r nd))

/-- The pending set after performing rounds `r, r+1, ..., r+k-1` on `pending`. -/
def pending_after_rounds (w : PollWorld) : Nat → Nat → List String → List String
  | _, 0, p => p
  | r, k + 1, p => pending_after_rounds w (r + 1) k (still_pending w p r)

/-- The `while len(nodes_to_check) > 0` loop of `_wait_for_rpc_availability`
(source lines 282-293), transcribed in order: (1) loop condition; (2) `if not
wait: break`; (3) one concurrent probe round over the pending nodes; (4)
`if time.time() - start_time > max_timeout_s: raise`; (5) sleep and repeat.
`probes` counts the individual probes issued.  One unit of fuel per
iteration. -/
def poll_loop (w : PollWorld) (wait : Bool) (max_timeout_s : Nat) : Nat → Nat → List String → Nat → PollOut
  | 0, _, _, acc => ⟨.outOfFuel, acc⟩
  | fuel + 1, r, pending, acc =>
    if pending.isEmpty then ⟨.success, acc⟩
    else if wait = false then ⟨.success, acc⟩
    else
      let still := still_pending w pending r
      let acc2 := acc + pending.length
      if max_timeout_s < w.elapsedAfter r then ⟨.timeoutErr still, acc2⟩
      else poll_loop w wait max_timeout_s fuel (r + 1) still acc2

/-- `_wait_for_rpc_availability` (source lines 261-295).  `if not nodes_name:`
is Python truthiness, so both an absent (`none`) and an explicitly empty node
list resolve to all configured nodes.  The per-probe `timeout` argument is
forwarded to each probe and absorbed by the probe oracle. -/
def wait_for_rpc_availability (w : PollWorld) (configured : List String)
    (nodes_name : Option (List String)) (wait : Bool)
    (timeout max_timeout_s fuel : Nat) : PollOut :=
  let nodes := match nodes_name with
    | none => configured
    | some [] => configured
    | some ns => ns
  poll_loop w wait max_timeout_s fuel 0 nodes 0

/-- One entry of the list built by `_get_nodes_block_counts` (source lines
185-205): node name, block count, cemented count and the two version fields
read by the report line. -/
structure BlockCount where
  node_name : String
  count : Nat
  cemented : Nat
  node_vendor : String
  build_info : String
  deriving DecidableEq

/-- `get_node_data` (source lines 216-221): first entry with matching name. -/
def get_node_data (nodes_block_count : List BlockCount) (nm : String) : Option BlockCount :=
  nodes_block_count.find? (fun bc => bc.node_name == nm)

/-- `max(int(bc["count"]) for bc in nodes_block_count)` (source line 214);
only evaluated on a non-empty list, where the fold from 0 agrees with
Python's `max`. -/
def max_block_count (nodes_block_count : List BlockCount) : Nat :=
  (nodes_block_count.map (fun bc => bc.count)).foldl Nat.max 0

/-- `floor(int(bc["cemented"]) / max_count * 10000)` (source lines 225-226),
with Python float division modelled as exact rational division. The final
`/ 100` of the source is realized in the rendering (`two_dec_fmt`). -/
def synced_percentage (cemented max_count : Nat) : Nat :=
  Int.toNat ⌊(cemented : ℚ) / (max_count : ℚ) * 10000⌋

/-- Renders `n / 100` with exactly two decimal digits, the value which
`"{:>6.2f}".format(floor(x * 10000) / 100)` prints. -/
def two_dec_fmt (n : Nat) : String :=
  Nat.repr (n / 100) ++ "." ++
    (if n % 100 < 10 then "0" ++ Nat.repr (n % 100) else Nat.repr (n % 100))

/-- Python `'{:<W}'` left-aligned padding to width `w` (no truncation). -/
def pad_right (w : Nat) (s : String) : String :=
  s ++ String.mk (List.replicate (w - s.length) ' ')

/-- Python `'{:>W}'` right-aligned padding to width `w` (no truncation). -/
def pad_left (w : Nat) (s : String) : String :=
  String.mk (List.replicate (w - s.length) ' ') ++ s

/-- Python `s.split(" ")[0]`. -/
def first_word (s : String) : String :=
  String.mk (s.toList.takeWhile (fun c => !(c == ' ')))

/-- The successfully formatted report line of `format_report_line` (source
lines 223-229): `'{:<16} {:<20} {:>6.2f}% synced | {}/{} blocks cemented'`. -/
def format_line_str (max_count : Nat) (bc : BlockCount) : String :=
  pad_right 16 bc.node_name ++ " " ++
  pad_right 20 (bc.node_vendor ++ " " ++ first_word bc.build_info) ++ " " ++
  pad_left 6 (two_dec_fmt (synced_percentage bc.cemented max_count)) ++
  "% synced | " ++ Nat.repr bc.cemented ++ "/" ++ Nat.repr bc.count ++ " blocks cemented"

/-- `format_report_line` (source lines 223-229).  With `max_count = 0` the
division `int(bc["cemented"]) / max_count` raises `ZeroDivisionError`. -/
def format_report_line (max_count : Nat) (bc : BlockCount) : Except PyError String :=
  if max_count = 0 then .error .zeroDivisionError
  else .ok (format_line_str max_count bc)

/-- The line produced for one declared node when formatting succeeds:
formatted sync line when metrics exist, `"{node_name} [down]"` otherwise
(source lines 231-238). -/
def node_report_line (max_count : Nat) (nbc : List BlockCount) (nm : String) : String :=
  match get_node_data nbc nm with
  | some bc => format_line_str max_count bc
  | none => nm ++ " [down]"

/-- The `for node_name in nodes` loop of `_generate_network_status_report`
(source lines 231-238), accumulating one line per declared node in declaration
order; a raised exception aborts the traversal. -/
def report_lines (max_count : Nat) (nbc : List BlockCount) : List String → Except PyError (List String)
  | [] => .ok []
  | nm :: rest =>
    match (match get_node_data nbc nm with
           | some bc => format_report_line max_count bc
           | none => .ok (nm ++ " [down]")) with
    | .error e => .error e
    | .ok line =>
      match report_lines max_count nbc rest with
      | .error e => .error e
      | .ok ls => .ok (line :: ls)

/-- Python `sep.join(xs)`. -/
def join_with (sep : String) : List String → String
  | [] => ""
  | [s] => s
  | s :: rest => s ++ sep ++ join_with sep rest

/-- `_generate_network_status_report` (source lines 207-240): empty metric
list short-circuits to `""`; otherwise one line per declared node joined by
newlines, prefixed with a newline. -/
def generate_network_status_report (nodes : List String) (nbc : List BlockCount) : Except PyError String :=
  if nbc.isEmpty then .ok ""
  else
    match report_lines (max_block_count nbc) nbc nodes with
    | .ok ls => .ok ("\n" ++ join_with "\n" ls)
    | .error e => .error e

/-- Return values of dispatched actions: Python `None` or a string result. -/
inductive PyVal where
  | none
  | str (s : String)
  deriving DecidableEq

/-- Environment for the status/dispatch layer.  `configuredNodes` is
`conf_p.get_nodes_name()`; `isOnline` the per-container `docker ps` check of
`_online_containers`; `metrics` the block-count/version RPC results of
`_get_nodes_block_counts` for one node; `rpcPost` the
`NanoRpc.post_with_auth` collaborator; `otherAction` models the remaining
mapped actions (docker-compose lifecycle, init), whose effects live entirely
in external collaborators. -/
structure StatusEnv where
  configuredNodes : List String
  isOnline : String → Bool
  metrics : String → BlockCount
  rpcPost : String → Option String → String
  otherAction : String → Option (List String) → Except PyError PyVal

/-- `online_containers_status` (source lines 297-304). -/
def online_containers_status (online : List String) (total : Nat) : String :=
  if online.length = total then "All " ++ Nat.repr online.length ++ " containers online"
  else Nat.repr online.length ++ "/" ++ Nat.repr total ++ " containers online"

/-- `network_status` (source lines 306-320).  `if nodes_name == []` compares
with the empty list only (not `None`), returning `""`; afterwards
`nodes_name` is unconditionally overwritten with all configured nodes, so any
other caller-supplied selection is discarded. -/
def network_status (env : StatusEnv) (nodes_name : Option (List String)) : Except PyError String :=
  if nodes_name = some [] then .ok ""
  else
    let ns := env.configuredNodes
    let online := ns.filter env.isOnline
    let status_msg := online_containers_status online ns.length
    let nbc := online.map env.metrics
    match generate_network_status_report ns nbc with
    | .ok rep => .ok (status_msg ++ rep)
    | .error e => .error e

/-- Models `json.dumps(responses, indent=2)` for the collected response list
(responses treated as opaque strings, escaping elided). -/
def render_json_array (rs : List String) : String :=
  if rs.isEmpty then "[]"
  else "[\n" ++ join_with ",\n" (rs.map (fun r => "  \x22" ++ r ++ "\x22")) ++ "\n]"

/-- `run_rpc` (source lines 338-349): `nodes is None` resolves to all
configured nodes (an explicit empty list stays empty), each target node is
posted the payload, and the JSON array of responses is returned. -/
def run_rpc (env : StatusEnv) (payload : Option String) (nodes : Option (List String)) : Except PyError String :=
  let ns := match nodes with
    | none => env.configuredNodes
    | some l => l
  .ok (render_json_array (ns.map (fun nd => env.rpcPost nd payload)))

/-- `_rpc_validator` (source lines 332-336); `if not payload` is Python
truthiness, rejecting both an absent and an empty payload. -/
def rpc_validator (nodes : Option (List String)) (payload : Option String) :
    Except PyError (Option (List String) × Option String) :=
  if payload = none ∨ payload = some "" then
    .error (.valueError "The --payload argument is required for the 'rpc' command.")
  else .ok (nodes, payload)

/-- The two keyword arguments the dispatcher may forward. -/
inductive PyArg where
  | nodesArg (v : Option (List String))
  | payloadArg (v : Option String)
  deriving DecidableEq

/-- `_filter_args` (source lines 481-487): keep the keyword arguments whose
name appears among the callee's declared parameter names. -/
def filter_args (params : List String) (kwargs : List (String × PyArg)) : List (String × PyArg) :=
  kwargs.filter (fun kv => params.contains kv.1)

/-- Keyword lookup with Python's default of `None` for an absent parameter. -/
def lookup_nodes (kwargs : List (String × PyArg)) (key : String) : Option (List String) :=
  match kwargs.find? (fun kv => kv.1 == key) with
  | some (_, .nodesArg v) => v
  | _ => none

/-- Keyword lookup with Python's default of `None` for an absent parameter. -/
def lookup_payload (kwargs : List (String × PyArg)) (key : String) : Option String :=
  match kwargs.find? (fun kv => kv.1 == key) with
  | some (_, .payloadArg v) => v
  | _ => none

/-- The declared parameter names (after `self`) of each action registered in
`_initialize_command_mapping` (source lines 43-57), as `inspect.signature`
reports them: `start_containers(nodes=None)`, `network_status(nodes_name=None)`,
`run_rpc(payload=None, nodes=None)`, the `destroy` lambda takes no parameters,
and so on.  The `log_on_success` decorator lives outside `src/`; modelled from
the spec: the dispatcher "filters caller-supplied arguments to each target's
accepted parameters", so decorated actions are taken to expose the wrapped
function's signature. -/
def action_params : String → List String
  | "create" => []
  | "start" => ["nodes"]
  | "status" => ["nodes_name"]
  | "restart" => ["nodes"]
  | "reset" => ["nodes"]
  | "init" => []
  | "stop" => ["nodes"]
  | "remove" => []
  | "down" => []
  | "destroy" => []
  | "rpc" => ["payload", "nodes"]
  | _ => []

/-- The keys of `_initialize_command_mapping` (source lines 43-57). -/
def registered_commands : List String :=
  ["create", "start", "status", "restart", "reset", "init", "stop", "remove",
   "down", "destroy", "rpc"]

/-- Invocation of the mapped action with the filtered keyword arguments,
returning the action's own return value.  `status` and `rpc` are the actions
whose results the studied claims inspect; the remaining actions delegate to
external collaborators (`otherAction`). -/
def invoke_action (env : StatusEnv) (command : String) (kwargs : List (String × PyArg)) :
    Except PyError PyVal :=
  match command with
  | "status" => (network_status env (lookup_nodes kwargs "nodes_name")).map PyVal.str
  | "rpc" => (run_rpc env (lookup_payload kwargs "payload") (lookup_nodes kwargs "nodes")).map PyVal.str
  | c => env.otherAction c (lookup_nodes kwargs "nodes")

/-- The dispatch pipeline of `execute_command` (source lines 489-507) up to
and including the action call `command_func(**filtered_command_args)` on line
507, returning the value that call produces: registration check, optional
validator (only `rpc` has one, invoked on its filtered arguments), second
filter against the action's parameters, invocation. -/
def dispatched_action_value (env : StatusEnv) (command : String)
    (nodes : Option (List String)) (payload : Option String) : Except PyError PyVal :=
  if registered_commands.contains command = false then
    .error (.valueError ("Invalid command: " ++ command))
  else
    let validated : Except PyError (Option (List String) × Option String) :=
      if command = "rpc" then
        let fv := filter_args ["nodes", "payload"]
          [("nodes", .nodesArg nodes), ("payload", .payloadArg payload)]
        rpc_validator (lookup_nodes fv "nodes") (lookup_payload fv "payload")
      else .ok (nodes, payload)
    match validated with
    | .error e => .error e
    | .ok (vn, vp) =>
      invoke_action env command
        (filter_args (action_params command)
          [("nodes", .nodesArg vn), ("payload", .payloadArg vp)])

/-- `execute_command` (source lines 489-507): the action's value is computed
by line 507 but never returned — the function body ends there, so a
successful dispatch returns Python `None`. -/
def execute_command (env : StatusEnv) (command : String)
    (nodes : Option (List String)) (payload : Option String) : Except PyError PyVal :=
  (dispatched_action_value env command nodes payload).map (fun _ => PyVal.none)

/-- A world in which every external command fails with unmatched stderr. -/
def c2_world : World := ⟨fun _ => .fail "unknown fatal docker error"⟩

/-- A concrete failing invocation for the unmatched-stderr scenario. -/
def c2_cmd : Cmd := .argv ["docker-compose", "-f", "docker-compose.yml", "up", "-d"]

/-- A stderr text matching the `address_in_use` heal rule, with extractable
container name `cont1`. -/
def adv_stderr : String :=
  "driver failed programming external connectivity on endpoint cont1: port is already allocated"

/-- A world in which every external command (including every remediation
command issued by the healer) fails with a healable address-in-use error. -/
def adv_world : World := ⟨fun _ => .fail adv_stderr⟩

/-- A concrete originating command for the divergence scenario. -/
def adv_cmd : Cmd := .argv ["docker-compose", "up", "-d"]

/-- A polling world in which no node ever becomes reachable. -/
def c3_poll_world : PollWorld := ⟨fun _ _ => false, fun _ => 0⟩

/-- A polling world in which every probe succeeds but the very first round
already exceeds the overall deadline of 15 seconds. -/
def c7_poll_world : PollWorld := ⟨fun _ _ => true, fun _ => 16⟩

/-- A one-node status environment with the node's container offline. -/
def c1_env : StatusEnv :=
  { configuredNodes := ["n1"]
    isOnline := fun _ => false
    metrics := fun nd => ⟨nd, 0, 0, "NanoTest", "V1"⟩
    rpcPost := fun _ _ => "ok"
    otherAction := fun _ _ => .ok .none }

/-- A one-node status environment with the node's container offline. -/
def c8_env : StatusEnv :=
  { configuredNodes := ["n1"]
    isOnline := fun _ => false
    metrics := fun nd => ⟨nd, 0, 0, "NanoTest", "V1"⟩
    rpcPost := fun _ _ => "ok"
    otherAction := fun _ _ => .ok .none }

/-- A one-node status environment whose online node reports block count 0. -/
def c10_env : StatusEnv :=
  { configuredNodes := ["n1"]
    isOnline := fun _ => true
    metrics := fun nd => ⟨nd, 0, 0, "NanoTest", "V1"⟩
    rpcPost := fun _ _ => "ok"
    otherAction := fun _ _ => .ok .none }

/-- Concrete metrics entry for the truncation examples. -/
def c5_bc : BlockCount := ⟨"genesis", 100, 33, "Nano", "V27.0"⟩

/-- Concrete metrics for declared nodes `A` and `C` (node `B` is down). -/
def c6_nbc : List BlockCount :=
  [⟨"A", 10, 5, "Nano", "V1"⟩, ⟨"C", 10, 10, "Nano", "V1"⟩]

/-- Unfolding of one executor call: a failing run enters the auto-healer with
the captured stderr and the current retry count. -/
theorem subprocess_capture_raise_succ (w : World) (fuel : Nat) (cmd : Cmd) (increment : Nat) :
    subprocess_capture_raise w (fuel + 1) cmd increment =
      match w.run cmd with
      | .ok o => .ok o
      | .fail s => auto_heal w fuel cmd s increment := rfl

/-- In `adv_world` every command fails with `adv_stderr`, which matches the
`address_in_use` rule with container name `cont1`; one executor step therefore
either hits the retry ceiling or recurses into the remediation command. -/
theorem adv_step (f : Nat) (c : Cmd) (inc : Nat) :
    subprocess_capture_raise adv_world (f + 1) c inc =
      if 10 ≤ inc then ExecResult.raised (.calledProcessError c adv_stderr)
      else
        match subprocess_capture_raise adv_world f (heal_address_cmd "cont1") 0 with
        | .ok _ => subprocess_capture_raise adv_world f c (inc + 1)
        | .raised e => .raised e
        | .outOfFuel => .outOfFuel := rfl

/-- In `adv_world` the executor never completes from any retry count below
the ceiling, for any fuel: each remediation attempt starts a fresh executor
call with retry count 0, which fails the same way. -/
theorem adv_spins : ∀ (fuel : Nat) (c : Cmd) (inc : Nat), inc < 10 →
    subprocess_capture_raise adv_world fuel c inc = .outOfFuel := by
  intro fuel
  induction fuel with
  | zero => intro c inc _; rfl
  | succ f ih =>
    intro c inc h
    rw [adv_step, if_neg (by omega : ¬ 10 ≤ inc),
      ih (heal_address_cmd "cont1") 0 (by omega)]

/-- With positive max count, the per-node loop renders one line per declared
node, in declaration order. -/
theorem report_lines_ok (m : Nat) (hm : 0 < m) (nbc : List BlockCount) :
    ∀ nodes, report_lines m nbc nodes = .ok (nodes.map (node_report_line m nbc)) := by
  intro nodes
  induction nodes with
  | nil => rfl
  | cons nm rest ih =>
    have hm0 : ¬ m = 0 := by omega
    cases h : get_node_data nbc nm with
    | some bc => simp [report_lines, h, ih, node_report_line, format_report_line, hm0]
    | none => simp [report_lines, h, ih, node_report_line]

/-- A fold of `Nat.max` from 0 over zeros is 0. -/
theorem foldl_max_zero (l : List Nat) : (∀ x ∈ l, x = 0) → l.foldl Nat.max 0 = 0 := by
  induction l with
  | nil => intro _; rfl
  | cons a t ih =>
    intro h
    have ha : a = 0 := h a (by simp)
    subst ha
    simpa using ih (fun x hx => h x (by simp [hx]))

/-- If every collected metric reports block count 0, the maximum is 0. -/
theorem max_block_count_eq_zero (nbc : List BlockCount) (h : ∀ bc ∈ nbc, bc.count = 0) :
    max_block_count nbc = 0 := by
  unfold max_block_count
  apply foldl_max_zero
  intro x hx
  obtain ⟨bc, hbc, rfl⟩ := List.mem_map.mp hx
  exact h bc hbc

/-- With max count 0, the per-node loop aborts with `ZeroDivisionError` as
soon as any declared node has metrics. -/
theorem report_lines_zero_div (nbc : List BlockCount) :
    ∀ nodes : List String, (∃ nm ∈ nodes, (get_node_data nbc nm).isSome) →
      report_lines 0 nbc nodes = .error .zeroDivisionError := by
  intro nodes
  induction nodes with
  | nil => rintro ⟨nm, hnm, -⟩; cases hnm
  | cons a rest ih =>
    rintro ⟨nm, hnm, hs⟩
    cases hgd : get_node_data nbc a with
    | some bc => simp [report_lines, hgd, format_report_line]
    | none =>
      have hmem : nm ∈ rest := by
        rcases List.mem_cons.mp hnm with h1 | h1
        · subst h1; rw [hgd] at hs; simp at hs
        · exact h1
      have hrec := ih ⟨nm, hmem, hs⟩
      simp [report_lines, hgd, hrec]

/-- The integer sync percentage is the truncating natural division. -/
theorem synced_percentage_eq_div (c m : Nat) : synced_percentage c m = c * 10000 / m := by
  unfold synced_percentage
  have h : (c : ℚ) / (m : ℚ) * 10000 = ((c * 10000 : ℕ) : ℚ) / ((m : ℕ) : ℚ) := by
    push_cast; ring
  rw [h, Int.floor_toNat, Nat.floor_div_nat, Nat.floor_natCast]

/-- C1 (counterexample): dispatching the registered `status` command succeeds,
the invoked action returns the report string, yet `execute_command` returns
`None` — the value returned by `execute_command` is not the value returned by
the command's action. -/
theorem C1_counterexample :
    execute_command c1_env "status" none none = .ok PyVal.none ∧
    dispatched_action_value c1_env "status" none none = .ok (PyVal.str "0/1 containers online") ∧
    PyVal.none ≠ PyVal.str "0/1 containers online" := ⟨by rfl, by rfl, by decide⟩

/-- C1 (amended): dispatching a command either propagates the terminal error
raised along the pipeline, or completes returning Python `None`; the invoked
action's result is computed but discarded by `execute_command`, not
returned. -/
theorem C1_execute_command_returns_none (env : StatusEnv) (command : String)
    (nodes : Option (List String)) (payload : Option String) :
    (∀ v, dispatched_action_value env command nodes payload = .ok v →
      execute_command env command nodes payload = .ok PyVal.none) ∧
    (∀ e, dispatched_action_value env command nodes payload = .error e →
      execute_command env command nodes payload = .error e) := by
  constructor
  · intro v h; unfold execute_command; rw [h]; rfl
  · intro e h; unfold execute_command; rw [h]; rfl

/-- C1 (witness): the amended theorem applied to the concrete `status`
dispatch in `c1_env`. -/
theorem C1_witness : execute_command c1_env "status" none none = .ok PyVal.none :=
  (C1_execute_command_returns_none c1_env "status" none none).1
    (PyVal.str "0/1 containers online") (by rfl)

/-- C2 (counterexample): a failure whose stderr matches no heal pattern
propagates as `ValueError(stderr)` — a different error from the original
`CalledProcessError`, so the original failure is not re-raised unmodified. -/
theorem C2_counterexample :
    subprocess_capture_raise c2_world 3 c2_cmd 0 =
      .raised (.valueError "unknown fatal docker error") ∧
    PyError.valueError "unknown fatal docker error" ≠
      PyError.calledProcessError c2_cmd "unknown fatal docker error" :=
  ⟨by decide, by decide⟩

/-- C2 (amended): when the captured stderr contains neither configured heal
pattern and the retry ceiling has not been reached, the error that propagates
is a new `ValueError` carrying the original stderr text; the original
`CalledProcessError` object is not preserved. -/
theorem C2_unmatched_pattern_raises_valueerror (w : World) (fuel : Nat) (cmd : Cmd)
    (stderr : String) (increment : Nat) (hinc : increment < 10)
    (h1 : substr_in addr_pattern stderr = false)
    (h2 : substr_in docker_pattern stderr = false)
    (hrun : w.run cmd = .fail stderr) :
    subprocess_capture_raise w (fuel + 1) cmd increment = .raised (.valueError stderr) ∧
    auto_heal w fuel cmd stderr increment = .raised (.valueError stderr) := by
  have hheal : auto_heal w fuel cmd stderr increment = .raised (.valueError stderr) := by
    unfold auto_heal
    rw [if_neg (by omega : ¬ 10 ≤ increment), h1, h2]
    rfl
  refine ⟨?_, hheal⟩
  rw [subprocess_capture_raise_succ, hrun]
  exact hheal

/-- C2 (witness): the amended theorem applied to the concrete unmatched
failure in `c2_world`. -/
theorem C2_witness :
    subprocess_capture_raise c2_world 1 c2_cmd 0 =
      .raised (.valueError "unknown fatal docker error") :=
  (C2_unmatched_pattern_raises_valueerror c2_world 0 c2_cmd "unknown fatal docker error" 0
    (by omega) (by decide) (by decide) rfl).1

/-- C3 (counterexample): with `wait = false` and two pending unreachable
nodes, the poller returns immediately with zero probes issued — not one probe
per still-unconfirmed node. -/
theorem C3_counterexample :
    wait_for_rpc_availability c3_poll_world ["node1", "node2"] (some ["node1", "node2"])
      false 10 15 100 = ⟨.success, 0⟩ ∧
    (0 : Nat) ≠ ["node1", "node2"].length := ⟨by decide, by decide⟩

/-- C3 (amended): with `wait = false` the poller performs zero probing rounds
— the loop breaks before the first probe — and returns successfully without
blocking, regardless of the node set. -/
theorem C3_wait_false_returns_without_probing (w : PollWorld) (configured : List String)
    (nodes_name : Option (List String)) (timeout max_timeout_s fuel : Nat)
    (hfuel : 0 < fuel) :
    wait_for_rpc_availability w configured nodes_name false timeout max_timeout_s fuel =
      ⟨.success, 0⟩ := by
  obtain ⟨f, rfl⟩ : ∃ f, fuel = f + 1 := ⟨fuel - 1, by omega⟩
  unfold wait_for_rpc_availability
  rcases nodes_name with - | ns
  · cases configured <;> rfl
  · rcases ns with - | ⟨a, rest⟩
    · cases configured <;> rfl
    · rfl

/-- C3 (witness): the amended theorem applied to a concrete non-waiting
poll. -/
theorem C3_witness :
    wait_for_rpc_availability c3_poll_world ["a"] none false 10 15 5 = ⟨.success, 0⟩ :=
  C3_wait_false_returns_without_probing c3_poll_world ["a"] none 10 15 5 (by omega)

/-- C4 (counterexample): in a world where every command — including every
remediation command issued by the healer — fails with a healable
address-in-use error, the executor/healer mutual recursion never completes
for any fuel allowance: remediation subcommands restart with retry count 0,
so the 10-cycle ceiling never binds and the recursion diverges. -/
theorem C4_counterexample : diverges adv_world adv_cmd :=
  fun fuel => adv_spins fuel adv_cmd 0 (by omega)

/-- C4 (amended): whenever the auto-healer is entered with a retry count of
at least 10 it re-raises the original failure unchanged, bounding the direct
retry chain of one originating failure at 10 remediation cycles; this does
not make the executor/healer mutual recursion terminate in general, because
remediation commands run with a fresh retry count of 0. -/
theorem C4_retry_ceiling (w : World) (fuel : Nat) (origCmd : Cmd) (stderr : String)
    (increment : Nat) (h : 10 ≤ increment) :
    auto_heal w fuel origCmd stderr increment =
      .raised (.calledProcessError origCmd stderr) := by
  unfold auto_heal
  rw [if_pos h]

/-- C4 (witness): the ceiling theorem applied at retry count 10. -/
theorem C4_witness :
    auto_heal adv_world 0 adv_cmd "boom" 10 = .raised (.calledProcessError adv_cmd "boom") :=
  C4_retry_ceiling adv_world 0 adv_cmd "boom" 10 (by omega)

/-- C5: for positive max count the report line renders, and the sync
percentage it renders is the floor of `cemented / maxCount * 10000` — the
truncating natural division `cemented * 10000 / maxCount`, displayed over 100
with two decimals by `two_dec_fmt`; truncation, not rounding. -/
theorem C5_sync_percentage_truncation (bc : BlockCount) (m : Nat) (hm : 0 < m) :
    format_report_line m bc = .ok (format_line_str m bc) ∧
    synced_percentage bc.cemented m = bc.cemented * 10000 / m ∧
    ((synced_percentage bc.cemented m : ℤ) = ⌊(bc.cemented : ℚ) / (m : ℚ) * 10000⌋) := by
  refine ⟨?_, synced_percentage_eq_div _ _, ?_⟩
  · unfold format_report_line
    rw [if_neg (by omega : ¬ m = 0)]
  · unfold synced_percentage
    rw [Int.toNat_of_nonneg]
    apply Int.floor_nonneg.mpr
    positivity

/-- C5 (witness): the theorem applied at cemented 33, max count 100, plus the
claim's rendered examples: 33→"33.00" (never "33.33"), 40→"40.00",
100→"100.00". -/
theorem C5_witness :
    (0 : Nat) < 100 ∧
    format_report_line 100 c5_bc = .ok (format_line_str 100 c5_bc) ∧
    synced_percentage 33 100 = 33 * 10000 / 100 ∧
    two_dec_fmt (33 * 10000 / 100) = "33.00" ∧
    two_dec_fmt (40 * 10000 / 100) = "40.00" ∧
    two_dec_fmt (100 * 10000 / 100) = "100.00" :=
  ⟨by decide, (C5_sync_percentage_truncation c5_bc 100 (by decide)).1,
   (C5_sync_percentage_truncation c5_bc 100 (by decide)).2.1, by decide, by decide, by decide⟩

/-- C6: with a non-empty metric list and positive max block count, the report
contains exactly one line per declared node in the caller-declared order: a
node with metrics gets the formatted sync line, a node without metrics gets
`"{id} [down]"`. -/
theorem C6_one_line_per_declared_node (nodes : List String) (nbc : List BlockCount)
    (hne : nbc ≠ []) (hmax : 0 < max_block_count nbc) :
    generate_network_status_report nodes nbc =
      .ok ("\n" ++ join_with "\n" (nodes.map (node_report_line (max_block_count nbc) nbc))) ∧
    (nodes.map (node_report_line (max_block_count nbc) nbc)).length = nodes.length ∧
    (∀ nm, get_node_data nbc nm = none →
      node_report_line (max_block_count nbc) nbc nm = nm ++ " [down]") ∧
    (∀ nm bc, get_node_data nbc nm = some bc →
      node_report_line (max_block_count nbc) nbc nm = format_line_str (max_block_count nbc) bc) := by
  refine ⟨?_, by simp, fun nm h => by simp [node_report_line, h],
    fun nm bc h => by simp [node_report_line, h]⟩
  rcases nbc with - | ⟨b, bs⟩
  · exact absurd rfl hne
  · have hr := report_lines_ok (max_block_count (b :: bs)) hmax (b :: bs) nodes
    show (match report_lines (max_block_count (b :: bs)) (b :: bs) nodes with
          | .ok ls => Except.ok ("\n" ++ join_with "\n" ls)
          | .error e => Except.error e) = _
    rw [hr]

/-- C6 (witness): the theorem applied to declared nodes `[A, B, C]` with only
`A` and `C` reachable, plus the evaluated `"B [down]"` line. -/
theorem C6_witness :
    (generate_network_status_report ["A", "B", "C"] c6_nbc =
      .ok ("\n" ++ join_with "\n"
        (["A", "B", "C"].map (node_report_line (max_block_count c6_nbc) c6_nbc))) ∧
    (["A", "B", "C"].map (node_report_line (max_block_count c6_nbc) c6_nbc)).length =
      ["A", "B", "C"].length ∧
    (∀ nm, get_node_data c6_nbc nm = none →
      node_report_line (max_block_count c6_nbc) c6_nbc nm = nm ++ " [down]") ∧
    (∀ nm bc, get_node_data c6_nbc nm = some bc →
      node_report_line (max_block_count c6_nbc) c6_nbc nm =
        format_line_str (max_block_count c6_nbc) bc)) ∧
    node_report_line (max_block_count c6_nbc) c6_nbc "B" = "B [down]" :=
  ⟨C6_one_line_per_declared_node ["A", "B", "C"] c6_nbc (by decide) (by decide), by decide⟩

/-- C7 (counterexample): with every probe succeeding but the first round
already past the 15-second deadline, the poller raises the timeout error
naming an empty list of nodes — a timeout is raised even though no node is
still unreachable. -/
theorem C7_counterexample :
    wait_for_rpc_availability c7_poll_world ["node1"] none true 3 15 5 =
      ⟨.timeoutErr [], 1⟩ ∧
    still_pending c7_poll_world ["node1"] 0 = [] := ⟨by decide, by decide⟩

/-- C7 (amended): the overall deadline is checked after every round; whenever
the poller raises a timeout, some completed round exceeded the deadline and
the named node list is exactly the pending set left by the rounds performed —
which may be empty, because the deadline check precedes the loop's emptiness
re-check. -/
theorem C7_timeout_characterization (w : PollWorld) (max_timeout_s : Nat) :
    ∀ (fuel r : Nat) (pending : List String) (acc : Nat) (l : List String) (n : Nat),
      poll_loop w true max_timeout_s fuel r pending acc = ⟨.timeoutErr l, n⟩ →
      ∃ k, max_timeout_s < w.elapsedAfter (r + k) ∧
        l = pending_after_rounds w r (k + 1) pending := by
  intro fuel
  induction fuel with
  | zero =>
    intro r pending acc l n h
    simp [poll_loop] at h
  | succ f ih =>
    intro r pending acc l n h
    by_cases hp : pending.isEmpty = true
    · simp [poll_loop, hp] at h
    · by_cases ht : max_timeout_s < w.elapsedAfter r
      · simp [poll_loop, hp, ht] at h
        exact ⟨0, by simpa using ht, by simp [pending_after_rounds, h.1.symm]⟩
      · simp [poll_loop, hp, ht] at h
        obtain ⟨k, hk, hl⟩ := ih (r + 1) (still_pending w pending r) (acc + pending.length) l n h
        refine ⟨k + 1, ?_, ?_⟩
        · have hr : r + (k + 1) = r + 1 + k := by omega
          rw [hr]; exact hk
        · exact hl

/-- C7 (witness): the amended theorem applied to the concrete all-reachable
but already-late poll. -/
theorem C7_witness :
    ∃ k, 15 < c7_poll_world.elapsedAfter (0 + k) ∧
      ([] : List String) = pending_after_rounds c7_poll_world 0 (k + 1) ["node1"] :=
  C7_timeout_characterization c7_poll_world 15 5 0 ["node1"] 0 [] 1 (by decide)

/-- C8 (counterexample): an explicitly empty requested-node list yields the
empty report `""`, while an absent node list yields the full status report —
the two are not treated identically. -/
theorem C8_counterexample :
    network_status c8_env (some []) = .ok "" ∧
    network_status c8_env none = .ok "0/1 containers online" ∧
    ("" : String) ≠ "0/1 containers online" := ⟨by rfl, by rfl, by decide⟩

/-- C8 (amended): an explicitly empty requested-node list short-circuits to
the empty string report; every other selection — absent or non-empty — is
discarded and the report is the one over all configured nodes. -/
theorem C8_empty_vs_absent_selection (env : StatusEnv) :
    network_status env (some []) = .ok "" ∧
    ∀ ns : Option (List String), ns ≠ some [] →
      network_status env ns = network_status env none := by
  constructor
  · unfold network_status; rw [if_pos rfl]
  · intro ns hns
    unfold network_status
    rw [if_neg hns, if_neg (by decide : ¬ (none : Option (List String)) = some [])]

/-- C8 (witness): the amended theorem applied to the concrete environment and
a non-empty selection. -/
theorem C8_witness :
    network_status c8_env (some []) = .ok "" ∧
    network_status c8_env (some ["nX"]) = network_status c8_env none :=
  ⟨(C8_empty_vs_absent_selection c8_env).1,
   (C8_empty_vs_absent_selection c8_env).2 (some ["nX"]) (by decide)⟩

/-- C9: the `status` action's parameter is named `nodes_name`, so the
signature-based filter drops the dispatcher's `nodes` keyword entirely: the
filtered argument list is empty, the action runs with `nodes_name = None`,
and the dispatched result is independent of the caller's node selection,
covering all configured nodes. -/
theorem C9_status_ignores_nodes_argument (env : StatusEnv) (ns : Option (List String))
    (p : Option String) :
    filter_args (action_params "status")
      [("nodes", PyArg.nodesArg ns), ("payload", PyArg.payloadArg p)] = [] ∧
    dispatched_action_value env "status" ns p = (network_status env none).map PyVal.str ∧
    execute_command env "status" ns p = execute_command env "status" none none :=
  ⟨rfl, rfl, rfl⟩

/-- C10: if some configured node is online and every online node reports a
block count of 0, the status operation fails with `ZeroDivisionError`
(max count 0 is used as the divisor) instead of rendering a report.
`hname` states that the RPC-url-to-name resolution round-trips, as in the
source's collection loop. -/
theorem C10_all_zero_counts_zero_division (env : StatusEnv)
    (hname : ∀ nd, (env.metrics nd).node_name = nd)
    (honline : ∃ nd ∈ env.configuredNodes, env.isOnline nd = true)
    (hzero : ∀ nd, env.isOnline nd = true → (env.metrics nd).count = 0) :
    network_status env none = .error .zeroDivisionError := by
  obtain ⟨n0, hmem, hon⟩ := honline
  have hn0 : n0 ∈ env.configuredNodes.filter env.isOnline :=
    List.mem_filter.mpr ⟨hmem, hon⟩
  have hbc0 : env.metrics n0 ∈ (env.configuredNodes.filter env.isOnline).map env.metrics :=
    List.mem_map_of_mem _ hn0
  have hcounts : ∀ bc ∈ (env.configuredNodes.filter env.isOnline).map env.metrics,
      bc.count = 0 := by
    intro bc hbc
    obtain ⟨nd, hnd, rfl⟩ := List.mem_map.mp hbc
    exact hzero nd (List.mem_filter.mp hnd).2
  have hmax : max_block_count ((env.configuredNodes.filter env.isOnline).map env.metrics) = 0 :=
    max_block_count_eq_zero _ hcounts
  have hne : (env.configuredNodes.filter env.isOnline).map env.metrics ≠ [] :=
    List.ne_nil_of_mem hbc0
  have hsome :
      (get_node_data ((env.configuredNodes.filter env.isOnline).map env.metrics) n0).isSome := by
    unfold get_node_data
    rw [List.find?_isSome]
    exact ⟨env.metrics n0, hbc0, by simp [hname n0]⟩
  have hie : ((env.configuredNodes.filter env.isOnline).map env.metrics).isEmpty = false := by
    cases hc : (env.configuredNodes.filter env.isOnline).map env.metrics with
    | nil => exact absurd hc hne
    | cons b bs => rfl
  have hgen : generate_network_status_report env.configuredNodes
      ((env.configuredNodes.filter env.isOnline).map env.metrics) =
        .error .zeroDivisionError := by
    unfold generate_network_status_report
    rw [hie, hmax, report_lines_zero_div _ env.configuredNodes ⟨n0, hmem, hsome⟩]
    rfl
  simp [network_status, hgen]

/-- C10 (witness): the theorem applied to a one-node environment whose online
node reports block count 0. -/
theorem C10_witness : network_status c10_env none = .error .zeroDivisionError :=
  C10_all_zero_counts_zero_division c10_env (fun _ => rfl) ⟨"n1", by decide, rfl⟩
    (fun _ _ => rfl)
